import Mathlib

/-!
Shallow embedding of `src/tidb-server/main.go` (tidb-server bootstrap).

The pure control flow of the bootstrap is translated into Lean functions.
External effects (loading an X509 key pair, reading a file, parsing PEM
certificates — all Go standard library calls) are abstracted into an
`Env` record of functions, so that each branch of the Go code becomes a
branch of a total Lean function.  Durations are nanosecond counts as
`Int`, matching Go's `time.Duration`.  Log output is collected as a list
of events so that "logs a warning", "logs fatally" become provable facts.
-/

namespace TidbServer

/-- A log event, mirroring calls to `log.Info`, `log.Warn`, `log.Fatal*`. -/
inductive LogEvent
  | info (msg : String)
  | warn (msg : String)
  | fatal (msg : String)
  deriving Repr, DecidableEq

/-- The raw flag values consumed by `main` when building `server.Config`
(lines 110–126 of main.go). -/
structure Flags where
  host : String
  port : String
  logLevel : String
  statusPort : String
  socket : String
  reportStatus : Bool
  store : String
  storePath : String
  sslEnabled : Bool
  sslCAPath : String
  sslCertPath : String
  sslKeyPath : String
  deriving Repr, DecidableEq

/-- `server.Config` as populated by `main` (the composite literal at
lines 110–122 of main.go). -/
structure Config where
  addr : String
  logLevel : String
  statusAddr : String
  socket : String
  reportStatus : Bool
  store : String
  storePath : String
  sslEnabled : Bool
  sslCAPath : String
  sslCertPath : String
  sslKeyPath : String
  deriving Repr, DecidableEq

/-- The composite literal `cfg := &server.Config{...}` (main.go lines
110–122): every field is assigned from the corresponding flag, with
`Addr = host ++ ":" ++ port` and `StatusAddr = ":" ++ statusPort`
(the two `fmt.Sprintf` calls). -/
def initialConfig (f : Flags) : Config :=
  { addr := f.host ++ ":" ++ f.port
    logLevel := f.logLevel
    statusAddr := ":" ++ f.statusPort
    socket := f.socket
    reportStatus := f.reportStatus
    store := f.store
    storePath := f.storePath
    sslEnabled := f.sslEnabled
    sslCAPath := f.sslCAPath
    sslCertPath := f.sslCertPath
    sslKeyPath := f.sslKeyPath }

/-- The TLS implication rule (main.go lines 123–126): assigning
`sslCAPath`, `sslCertPath` or `sslKeyPath` implies `SSLEnabled = true`. -/
def resolveConfig (f : Flags) : Config :=
  let cfg := initialConfig f
  if f.sslCAPath.length > 0 || f.sslCertPath.length > 0 || f.sslKeyPath.length > 0 then
    { cfg with sslEnabled := true }
  else
    cfg

/-- Go's `tls.ClientAuthType`, restricted to the two values main.go uses. -/
inductive ClientAuthType
  | noClientCert
  | requireAndVerifyClientCert
  deriving Repr, DecidableEq

/-- An X509 certificate/key pair as returned by `tls.LoadX509KeyPair`. -/
structure TLSCertificate where
  certFile : String
  keyFile : String
  deriving Repr, DecidableEq

/-- The `tls.Config` built at main.go lines 169–174.  `clientCAs` models
the `*x509.CertPool` pointer: `none` is a nil pool, `some certs` is a
pool holding the listed certificates (possibly empty). -/
structure TLSConfig where
  certificates : List TLSCertificate
  clientCAs : Option (List String)
  clientAuth : ClientAuthType
  minVersion : Nat
  deriving Repr, DecidableEq

/-- The external effects of the TLS stage: `tls.LoadX509KeyPair`,
`ioutil.ReadFile`, and the PEM parsing inside
`x509.CertPool.AppendCertsFromPEM` (which returns true exactly when at
least one certificate was parsed and added). -/
structure Env where
  loadX509KeyPair : String → String → Except String TLSCertificate
  readFile : String → Except String String
  parsePEMCerts : String → List String

/-- The state after the TLS stage: the (possibly modified) config, the
`tlsConfig` pointer (nil = `none`), and the log events emitted. -/
structure TLSResult where
  cfg : Config
  tlsConfig : Option TLSConfig
  logs : List LogEvent
  deriving Repr, DecidableEq

/-- The CA-pool block of main.go lines 156–168: starting from
`clientAuthPolicy = NoClientCert` and a nil `certPool`, if a CA path is
supplied, read it; on read failure log a warning; on success build a new
pool from the PEM data and require-and-verify client certificates exactly
when at least one certificate was appended.  Returns
(clientAuthPolicy, certPool, logs). -/
def buildCAPool (env : Env) (caPath : String) :
    ClientAuthType × Option (List String) × List LogEvent :=
  if caPath.length > 0 then
    match env.readFile caPath with
    | .error e => (.noClientCert, none, [.warn e])
    | .ok caCert =>
      let pool := env.parsePEMCerts caCert
      if pool.isEmpty then
        (.noClientCert, some pool, [])
      else
        (.requireAndVerifyClientCert, some pool, [])
  else
    (.noClientCert, none, [])

/-- The TLS-loading block of main.go lines 146–176: when `cfg.SSLEnabled`,
load the certificate/key pair; on failure log a warning and force
`SSLEnabled = false` (plaintext fallback, not fatal); on success run the
CA block and build the `tls.Config`. -/
def buildTLS (env : Env) (cfg : Config) : TLSResult :=
  if cfg.sslEnabled then
    match env.loadX509KeyPair cfg.sslCertPath cfg.sslKeyPath with
    | .error e =>
      { cfg := { cfg with sslEnabled := false }, tlsConfig := none, logs := [.warn e] }
    | .ok tlsCert =>
      let ca := buildCAPool env cfg.sslCAPath
      { cfg := cfg
        tlsConfig := some
          { certificates := [tlsCert]
            clientCAs := ca.2.1
            clientAuth := ca.1
            minVersion := 0 }
        logs := ca.2.2 }
  else
    { cfg := cfg, tlsConfig := none, logs := [] }

/-- The log line at main.go lines 178–182: info when secure transport
ended up enabled, warn otherwise. -/
def secureLog (cfg : Config) : LogEvent :=
  if cfg.sslEnabled then
    .info "Secure connection is enabled"
  else
    .warn "Secure connection is NOT ENABLED"

/-- The result of `parseLease` (main.go lines 295–304): either the parsed
duration (nanoseconds) or a fatal exit with its message. -/
inductive LeaseResult
  | ok (d : Int)
  | fatal (msg : String)
  deriving Repr, DecidableEq

/-- `parseLease` (main.go lines 295–304), with `time.ParseDuration`
abstracted as `pd` (a Go standard-library call; `none` models a parse
error).  Parse the string; on error retry with the default unit suffix
"s" appended; if still failing, or the result is negative, exit fatally
naming the offending value. -/
def parseLease (pd : String → Option Int) (lease : String) : LeaseResult :=
  let firstTry := pd lease
  let secondTry :=
    match firstTry with
    | some d => some d
    | none => pd (lease ++ "s")
  match secondTry with
  | none => .fatal ("invalid lease duration " ++ lease)
  | some d =>
    if d < 0 then
      .fatal ("invalid lease duration " ++ lease)
    else
      .ok d

/-- The four termination signals subscribed at main.go lines 210–214. -/
inductive OsSignal
  | sighup
  | sigint
  | sigterm
  | sigquit
  deriving Repr, DecidableEq

/-- Linux signal numbers, the `%d` printed by the shutdown goroutine. -/
def signalNumber : OsSignal → Nat
  | .sighup => 1
  | .sigint => 2
  | .sigterm => 15
  | .sigquit => 3

/-- The signal set passed to `signal.Notify` (main.go lines 210–214). -/
def subscribedSignals : List OsSignal :=
  [.sighup, .sigint, .sigterm, .sigquit]

/-- Observable outcome of the shutdown goroutine: how many times
`svr.Close()` was called and what was logged. -/
structure CoordinatorResult where
  closeCalls : Nat
  logs : List LogEvent
  deriving Repr, DecidableEq

/-- The shutdown goroutine (main.go lines 216–220) applied to the
sequence of signals delivered on the channel: its body performs exactly
one channel receive, one info log, and one `svr.Close()`, then
terminates; with no signal delivered it stays blocked on the receive. -/
def shutdownCoordinator (delivered : List OsSignal) : CoordinatorResult :=
  match delivered with
  | [] => { closeCalls := 0, logs := [] }
  | sig :: _ =>
    { closeCalls := 1
      logs := [.info ("Got signal [" ++ toString (signalNumber sig) ++ "] to exit.")] }

/-- Observable events of the tail of `main` (lines 229–231). -/
inductive MainEvent
  | runReturned (err : Option String)
  | logError (err : Option String)
  | domainClose
  | exitProcess (code : Int)
  deriving Repr, DecidableEq

/-- The final shutdown sequence of `main` (lines 229–231):
`log.Error(svr.Run())` — Run returns, its result is logged —
then `domain.Close()`, then `os.Exit(0)`, in that order and
unconditionally. -/
def mainShutdownTrace (runErr : Option String) : List MainEvent :=
  [.runReturned runErr, .logError runErr, .domainClose, .exitProcess 0]

/-- What `pushMetric` does: return after a log line with no task
spawned, or spawn the periodic push loop. -/
inductive PushAction
  | disabled (logMsg : String)
  | spawnLoop (addr : String) (interval : Int)
  deriving Repr, DecidableEq

/-- `const zeroDuration = time.Duration(0)` (main.go line 256). -/
def zeroDuration : Int := 0

/-- `pushMetric` (main.go lines 259–266): if the interval is zero or the
address is empty, log and return without spawning anything; otherwise
spawn `prometheusPushClient` in the background. -/
def pushMetric (addr : String) (interval : Int) : PushAction :=
  if interval = zeroDuration ∨ addr.length = 0 then
    .disabled "disable Prometheus push client"
  else
    .spawnLoop addr interval

/-- The conversion at the `pushMetric` call site (main.go line 227):
`time.Duration(*metricsInterval) * time.Second`, in nanoseconds. -/
def metricsIntervalDuration (metricsInterval : Int) : Int :=
  metricsInterval * 1000000000

/-! ## Theorems -/

theorem length_pos_of_ne_empty (s : String) (h : s ≠ "") : s.length > 0 := by
  cases s with
  | mk data =>
    cases data with
    | nil => exact absurd rfl h
    | cons c cs => simp [String.length]

/-- C3: For every combination of flag values, if any of the CA path,
certificate path, or key path is a non-empty string, then the resolved
`ServerConfig` has TLS-enabled = true, regardless of the value of the
explicit TLS enable flag. -/
theorem ssl_paths_force_enable (f : Flags)
    (h : f.sslCAPath ≠ "" ∨ f.sslCertPath ≠ "" ∨ f.sslKeyPath ≠ "") :
    (resolveConfig f).sslEnabled = true := by
  unfold resolveConfig
  have hlen : f.sslCAPath.length > 0 ∨ f.sslCertPath.length > 0 ∨ f.sslKeyPath.length > 0 := by
    rcases h with h | h | h
    · exact Or.inl (length_pos_of_ne_empty _ h)
    · exact Or.inr (Or.inl (length_pos_of_ne_empty _ h))
    · exact Or.inr (Or.inr (length_pos_of_ne_empty _ h))
  simp only [decide_eq_true_eq, Bool.or_eq_true]
  split
  · rfl
  · rename_i hcond
    exfalso
    apply hcond
    rcases hlen with h | h | h <;> simp [h]

theorem ssl_paths_force_enable_witness :
    ((⟨"0.0.0.0", "4000", "info", "10080", "", true, "goleveldb", "/tmp/tidb",
        false, "/certs/ca.pem", "", ""⟩ : Flags).sslCAPath ≠ "" ∨
      (⟨"0.0.0.0", "4000", "info", "10080", "", true, "goleveldb", "/tmp/tidb",
        false, "/certs/ca.pem", "", ""⟩ : Flags).sslCertPath ≠ "" ∨
      (⟨"0.0.0.0", "4000", "info", "10080", "", true, "goleveldb", "/tmp/tidb",
        false, "/certs/ca.pem", "", ""⟩ : Flags).sslKeyPath ≠ "") ∧
    (resolveConfig ⟨"0.0.0.0", "4000", "info", "10080", "", true, "goleveldb", "/tmp/tidb",
        false, "/certs/ca.pem", "", ""⟩).sslEnabled = true :=
  ⟨Or.inl (by decide),
    ssl_paths_force_enable _ (Or.inl (by decide))⟩

/-- C7: For every call to `pushMetric` with an empty address or a zero
interval, the pusher is disabled entirely: the disable log line is
emitted and the push loop is never spawned (so no push call is ever
issued). -/
theorem push_metric_disabled (addr : String) (interval : Int)
    (h : addr = "" ∨ interval = 0) :
    pushMetric addr interval = .disabled "disable Prometheus push client" ∧
    ∀ a i, pushMetric addr interval ≠ .spawnLoop a i := by
  have hcond : interval = zeroDuration ∨ addr.length = 0 := by
    rcases h with h | h
    · exact Or.inr (by simp [h])
    · exact Or.inl (by simpa [zeroDuration] using h)
  constructor
  · unfold pushMetric
    simp [hcond]
  · intro a i
    unfold pushMetric
    simp [hcond]

theorem push_metric_disabled_witness :
    pushMetric "" 15000000000 = .disabled "disable Prometheus push client" ∧
    ∀ a i, pushMetric "" 15000000000 ≠ .spawnLoop a i :=
  push_metric_disabled "" 15000000000 (Or.inl rfl)

/-- C8: A negative metrics interval does not disable the Metrics Pusher:
for every non-empty address and every interval value other than exactly
zero (including negative values), `pushMetric` spawns the periodic push
loop. -/
theorem push_metric_negative_spawns (addr : String) (interval : Int)
    (haddr : addr ≠ "") (hint : interval ≠ 0) :
    pushMetric addr interval = .spawnLoop addr interval := by
  unfold pushMetric
  have h1 : ¬(interval = zeroDuration ∨ addr.length = 0) := by
    rintro (h | h)
    · exact hint (by simpa [zeroDuration] using h)
    · exact haddr (by
        cases addr with
        | mk data =>
          simp only [String.length] at h
          cases data with
          | nil => rfl
          | cons c cs => simp at h)
  simp [h1]

theorem push_metric_negative_spawns_witness :
    pushMetric "gateway:9091" (metricsIntervalDuration (-15)) =
      .spawnLoop "gateway:9091" (metricsIntervalDuration (-15)) :=
  push_metric_negative_spawns "gateway:9091" (metricsIntervalDuration (-15))
    (by decide) (by decide)

/-- C5: The Shutdown Coordinator subscribes to the four termination
signals (hangup, interrupt, terminate, quit); upon receiving the first
such signal it invokes the server's close operation exactly once and
then takes no further action, so even if multiple signals arrive the
close call count is exactly one. -/
theorem shutdown_close_exactly_once (delivered : List OsSignal)
    (h : delivered ≠ []) :
    (∀ s : OsSignal, s ∈ subscribedSignals) ∧
    (shutdownCoordinator delivered).closeCalls = 1 := by
  constructor
  · intro s
    cases s <;> simp [subscribedSignals]
  · cases delivered with
    | nil => exact absurd rfl h
    | cons sig rest => rfl

theorem shutdown_close_exactly_once_witness :
    (∀ s : OsSignal, s ∈ subscribedSignals) ∧
    (shutdownCoordinator [.sigint, .sigterm, .sigterm]).closeCalls = 1 :=
  shutdown_close_exactly_once [.sigint, .sigterm, .sigterm] (by decide)

/-- C6: On the normal shutdown path, the SessionDomain is closed strictly
after the server's run call returns, the process exits strictly after
the SessionDomain close, and the exit code is 0 regardless of whether
run returned a non-nil terminal error (the error is logged but does not
change the shutdown sequence or the exit code). -/
theorem shutdown_ordering (runErr : Option String) :
    (∃ i j k : Nat, i < j ∧ j < k ∧
      (mainShutdownTrace runErr)[i]? = some (.runReturned runErr) ∧
      (mainShutdownTrace runErr)[j]? = some .domainClose ∧
      (mainShutdownTrace runErr)[k]? = some (.exitProcess 0)) ∧
    MainEvent.logError runErr ∈ mainShutdownTrace runErr ∧
    (∀ c, MainEvent.exitProcess c ∈ mainShutdownTrace runErr → c = 0) := by
  refine ⟨⟨0, 2, 3, by omega, by omega, rfl, rfl, rfl⟩, ?_, ?_⟩
  · simp [mainShutdownTrace]
  · intro c hc
    simp only [mainShutdownTrace, List.mem_cons, List.not_mem_nil, or_false] at hc
    rcases hc with h | h | h | h <;> first
      | (cases h; rfl)
      | (simp at h)

/-- C2: For every lease string that parses under the standard duration
grammar (to a non-negative value), `parseLease` returns that duration;
for a string that fails to parse, `parseLease` retries after appending
the default unit suffix "s" and returns that result; if parsing still
fails, or the parsed duration is negative, `parseLease` terminates the
process fatally with a message naming the offending value. -/
theorem parse_lease_spec (pd : String → Option Int) (lease : String) :
    (∀ d : Int, pd lease = some d → 0 ≤ d → parseLease pd lease = .ok d) ∧
    (∀ d : Int, pd lease = none → pd (lease ++ "s") = some d → 0 ≤ d →
      parseLease pd lease = .ok d) ∧
    (pd lease = none → pd (lease ++ "s") = none →
      parseLease pd lease = .fatal ("invalid lease duration " ++ lease)) ∧
    (∀ d : Int, (pd lease = some d ∨ (pd lease = none ∧ pd (lease ++ "s") = some d)) →
      d < 0 → parseLease pd lease = .fatal ("invalid lease duration " ++ lease)) := by
  refine ⟨?_, ?_, ?_, ?_⟩
  · intro d h1 h2
    unfold parseLease
    simp only [h1]
    simp [not_lt.mpr h2]
  · intro d h1 h2 h3
    unfold parseLease
    simp only [h1, h2]
    simp [not_lt.mpr h3]
  · intro h1 h2
    unfold parseLease
    simp [h1, h2]
  · intro d hparse hneg
    unfold parseLease
    rcases hparse with h | ⟨h1, h2⟩
    · simp only [h]
      simp [hneg]
    · simp only [h1, h2]
      simp [hneg]

/-- Witness for C2: a concrete `pd` where "10" fails to parse and "10s"
parses to ten seconds, exercising the retry-with-suffix branch. -/
theorem parse_lease_spec_witness :
    parseLease
      (fun s => if s = "10s" then some 10000000000 else none) "10" =
      .ok 10000000000 :=
  (parse_lease_spec (fun s => if s = "10s" then some 10000000000 else none) "10").2.1
    10000000000 (by decide) (by decide) (by decide)

/-! ### Concrete environments and configs used in witnesses and
counterexamples -/

/-- A config with TLS enabled and all three material paths set. -/
def cfgWithCA : Config :=
  { addr := "0.0.0.0:4000", logLevel := "info", statusAddr := ":10080",
    socket := "", reportStatus := true, store := "goleveldb",
    storePath := "/tmp/tidb", sslEnabled := true, sslCAPath := "ca.pem",
    sslCertPath := "cert.pem", sslKeyPath := "key.pem" }

/-- An environment where the key pair loads, the CA file reads, but the
CA file contains no valid PEM certificate. -/
def envEmptyPEMCA : Env :=
  { loadX509KeyPair := fun c k => .ok { certFile := c, keyFile := k }
    readFile := fun _ => .ok "this is not pem data"
    parsePEMCerts := fun _ => [] }

/-- An environment where the key pair loads and the CA file yields one
valid certificate. -/
def envValidCA : Env :=
  { loadX509KeyPair := fun c k => .ok { certFile := c, keyFile := k }
    readFile := fun _ => .ok "ca pem data"
    parsePEMCerts := fun _ => ["ca-cert-1"] }

/-- An environment where loading the certificate/key pair fails. -/
def envLoadFail : Env :=
  { loadX509KeyPair := fun _ _ =>
      .error "open cert.pem: no such file or directory"
    readFile := fun _ => .error "open ca.pem: no such file or directory"
    parsePEMCerts := fun _ => [] }

/-- C4: When TLS is enabled in the resolved config and loading the
certificate/key pair fails, the process logs a warning, sets
TLS-enabled = false, produces no TLS policy (nil policy, plaintext
transport), and startup continues without a fatal exit. -/
theorem cert_load_failure_fallback (env : Env) (cfg : Config) (e : String)
    (hssl : cfg.sslEnabled = true)
    (hload : env.loadX509KeyPair cfg.sslCertPath cfg.sslKeyPath = .error e) :
    (buildTLS env cfg).cfg.sslEnabled = false ∧
    (buildTLS env cfg).tlsConfig = none ∧
    LogEvent.warn e ∈ (buildTLS env cfg).logs ∧
    ∀ m, LogEvent.fatal m ∉ (buildTLS env cfg).logs := by
  unfold buildTLS
  simp [hssl, hload]

theorem cert_load_failure_fallback_witness :
    (buildTLS envLoadFail cfgWithCA).cfg.sslEnabled = false ∧
    (buildTLS envLoadFail cfgWithCA).tlsConfig = none ∧
    LogEvent.warn "open cert.pem: no such file or directory" ∈
      (buildTLS envLoadFail cfgWithCA).logs ∧
    ∀ m, LogEvent.fatal m ∉ (buildTLS envLoadFail cfgWithCA).logs :=
  cert_load_failure_fallback envLoadFail cfgWithCA
    "open cert.pem: no such file or directory" rfl rfl

/-- C9: At the moment the server is constructed, the TLS policy passed
to it is non-nil if and only if the config's TLS-enabled flag is true;
equivalently, the informational log line about secure transport being
enabled is emitted exactly when a TLS policy exists. -/
theorem tls_policy_iff_enabled (env : Env) (cfg : Config) :
    ((buildTLS env cfg).tlsConfig.isSome = true ↔
      (buildTLS env cfg).cfg.sslEnabled = true) ∧
    ((buildTLS env cfg).tlsConfig.isSome = true ↔
      secureLog (buildTLS env cfg).cfg = .info "Secure connection is enabled") := by
  unfold buildTLS secureLog
  by_cases hssl : cfg.sslEnabled = true
  · simp only [hssl, if_true]
    cases hload : env.loadX509KeyPair cfg.sslCertPath cfg.sslKeyPath with
    | error e => simp
    | ok cert => simp [hssl]
  · have hfalse : cfg.sslEnabled = false := by
      cases h : cfg.sslEnabled
      · rfl
      · exact absurd h hssl
    simp [hfalse]

/-- The fields of `server.Config` other than `SSLEnabled` agree. -/
def agreesExceptSSLEnabled (a b : Config) : Prop :=
  a.addr = b.addr ∧ a.logLevel = b.logLevel ∧ a.statusAddr = b.statusAddr ∧
  a.socket = b.socket ∧ a.reportStatus = b.reportStatus ∧ a.store = b.store ∧
  a.storePath = b.storePath ∧ a.sslCAPath = b.sslCAPath ∧
  a.sslCertPath = b.sslCertPath ∧ a.sslKeyPath = b.sslKeyPath

theorem agreesExceptSSLEnabled_trans {a b c : Config}
    (h1 : agreesExceptSSLEnabled a b) (h2 : agreesExceptSSLEnabled b c) :
    agreesExceptSSLEnabled a c := by
  obtain ⟨e1, e2, e3, e4, e5, e6, e7, e8, e9, e10⟩ := h1
  obtain ⟨g1, g2, g3, g4, g5, g6, g7, g8, g9, g10⟩ := h2
  exact ⟨e1.trans g1, e2.trans g2, e3.trans g3, e4.trans g4, e5.trans g5,
    e6.trans g6, e7.trans g7, e8.trans g8, e9.trans g9, e10.trans g10⟩

/-- C10: Both the TLS implication rule and the certificate-load fallback
modify only the TLS-enabled field of the ServerConfig; every other field
(addresses, socket path, store name/path, TLS material paths,
status-reporting flag, log level) keeps exactly the value assigned from
the corresponding raw flag. -/
theorem tls_stages_frame (f : Flags) (env : Env) (cfg : Config) :
    agreesExceptSSLEnabled (resolveConfig f) (initialConfig f) ∧
    agreesExceptSSLEnabled (buildTLS env cfg).cfg cfg ∧
    agreesExceptSSLEnabled (buildTLS env (resolveConfig f)).cfg (initialConfig f) := by
  have h1 : agreesExceptSSLEnabled (resolveConfig f) (initialConfig f) := by
    unfold resolveConfig agreesExceptSSLEnabled
    split <;> simp
  have h2 : ∀ c : Config, agreesExceptSSLEnabled (buildTLS env c).cfg c := by
    intro c
    unfold buildTLS agreesExceptSSLEnabled
    by_cases h : c.sslEnabled = true
    · simp only [h, if_true]
      cases hload : env.loadX509KeyPair c.sslCertPath c.sslKeyPath <;> simp [hload]
    · have hfalse : c.sslEnabled = false := by
        cases hc : c.sslEnabled
        · rfl
        · exact absurd hc h
      simp [hfalse]
  exact ⟨h1, h2 cfg, agreesExceptSSLEnabled_trans (h2 (resolveConfig f)) h1⟩

/-- C1 counterexample: with TLS enabled, a successfully loaded key pair,
a CA path whose file reads successfully but contains no valid PEM
certificate, the code leaves client auth at no-client-cert, yet it has
already assigned a fresh (empty) pool to `certPool`, so the trust pool
is present in the policy (`clientCAs = some []`), not absent as the
claim states for this case. -/
theorem ca_pool_empty_pem_counterexample :
    (buildTLS envEmptyPEMCA cfgWithCA).tlsConfig =
      some { certificates := [{ certFile := "cert.pem", keyFile := "key.pem" }]
             clientCAs := some []
             clientAuth := ClientAuthType.noClientCert
             minVersion := 0 } ∧
    Option.map TLSConfig.clientCAs (buildTLS envEmptyPEMCA cfgWithCA).tlsConfig ≠
      some none := by
  constructor <;> decide

/-- C1 (amended): when TLS is enabled and the key pair loads, client
auth is require-and-verify iff a non-empty trust pool was built from the
CA path; the pool is absent from the policy when no CA path is given or
the CA file is unreadable, but when the CA file reads successfully the
policy carries the pool of parsed certificates even when that pool is
empty (in which case no client certificate is required). -/
theorem client_auth_policy_amended (env : Env) (cfg : Config)
    (cert : TLSCertificate)
    (hssl : cfg.sslEnabled = true)
    (hload : env.loadX509KeyPair cfg.sslCertPath cfg.sslKeyPath = .ok cert) :
    ∃ tc : TLSConfig,
      (buildTLS env cfg).tlsConfig = some tc ∧
      (tc.clientAuth = ClientAuthType.requireAndVerifyClientCert ↔
        (cfg.sslCAPath.length > 0 ∧
          ∃ ca, env.readFile cfg.sslCAPath = .ok ca ∧
            env.parsePEMCerts ca ≠ [])) ∧
      (cfg.sslCAPath.length = 0 → tc.clientCAs = none) ∧
      (∀ e, env.readFile cfg.sslCAPath = .error e → tc.clientCAs = none) ∧
      (∀ ca, cfg.sslCAPath.length > 0 → env.readFile cfg.sslCAPath = .ok ca →
        tc.clientCAs = some (env.parsePEMCerts ca)) := by
  unfold buildTLS
  simp only [hssl, if_true, hload]
  refine ⟨_, rfl, ?_, ?_, ?_, ?_⟩ <;> unfold buildCAPool
  · by_cases hca : cfg.sslCAPath.length > 0
    · rw [if_pos hca]
      cases hread : env.readFile cfg.sslCAPath with
      | error e =>
        constructor
        · intro h
          cases h
        · rintro ⟨-, ca, hca2, -⟩
          cases hca2
      | ok ca =>
        dsimp only
        by_cases hpem : (env.parsePEMCerts ca).isEmpty = true
        · rw [if_pos hpem]
          constructor
          · intro h
            cases h
          · rintro ⟨-, ca2, hca2, hne⟩
            cases hca2
            exact absurd (List.isEmpty_iff.mp hpem) hne
        · rw [if_neg hpem]
          refine ⟨fun _ => ⟨hca, ca, rfl, ?_⟩, fun _ => rfl⟩
          intro h
          exact hpem (by simp [h])
    · rw [if_neg hca]
      constructor
      · intro h
        cases h
      · rintro ⟨h, -⟩
        exact absurd h hca
  · intro hca
    have hca2 : ¬cfg.sslCAPath.length > 0 := by omega
    simp [hca2]
  · intro e hread
    by_cases hca : cfg.sslCAPath.length > 0
    · simp [hca, hread]
    · simp [hca]
  · intro ca hca hread
    simp only [hca, if_true, hread]
    by_cases hpem : (env.parsePEMCerts ca).isEmpty
    · simp [hpem]
    · simp [hpem]

theorem client_auth_policy_amended_witness :
    ∃ tc : TLSConfig,
      (buildTLS envValidCA cfgWithCA).tlsConfig = some tc ∧
      (tc.clientAuth = ClientAuthType.requireAndVerifyClientCert ↔
        (cfgWithCA.sslCAPath.length > 0 ∧
          ∃ ca, envValidCA.readFile cfgWithCA.sslCAPath = .ok ca ∧
            envValidCA.parsePEMCerts ca ≠ [])) ∧
      (cfgWithCA.sslCAPath.length = 0 → tc.clientCAs = none) ∧
      (∀ e, envValidCA.readFile cfgWithCA.sslCAPath = .error e →
        tc.clientCAs = none) ∧
      (∀ ca, cfgWithCA.sslCAPath.length > 0 →
        envValidCA.readFile cfgWithCA.sslCAPath = .ok ca →
          tc.clientCAs = some (envValidCA.parsePEMCerts ca)) :=
  client_auth_policy_amended envValidCA cfgWithCA
    { certFile := "cert.pem", keyFile := "key.pem" } rfl rfl

end TidbServer
